import Mathlib

/-!
# Cloud printer server (`src/cloud/index.js`)

A shallow embedding of the Express / socket.io server: the `PrintJob` collection, the
`/connectprinter` namespace, the three HTTP handlers (`POST /upload`, `GET /api/jobs`,
`PUT /api/jobs/:id/status`) and the socket handlers (`connection`, `printer-registered`,
`job-status-update`, `disconnect`).

Every handler is a function from the server state (and the inputs the environment supplies:
the clock, the fresh document id, the outcome of the database call) to the new server state
and, for HTTP handlers, the response.  Effects that leave the process (database calls,
broadcasts, console output) are appended, in program order, to `Server.trace`.

Dates are milliseconds since the epoch (`Nat`); document ids are `Nat`.
-/

namespace CloudPrinter

/-! ## Data model -/

/-- Modelled from the spec: the Mongoose model `./models/PrintJob.js` is imported by
`index.js` but is not among the sources.  The record has exactly the fields that `index.js`
reads or writes (`_id`, `filename`, `originalName`, `filePath`, `fileUrl`, `printerName`,
`status`, `uploadedAt`, `updatedAt`); `status` is an arbitrary string because the handlers
store whatever string they are handed, and `updatedAt` is absent until a status write sets
it. -/
structure PrintJob where
  _id : Nat
  filename : String
  originalName : String
  filePath : String
  fileUrl : String
  printerName : String
  status : String
  uploadedAt : Nat
  updatedAt : Option Nat
  deriving DecidableEq, Repr

/-- The payload of the `new-print-job` message built in `POST /upload`. -/
structure DispatchMessage where
  jobId : Nat
  printerName : String
  fileUrl : String
  filename : String
  filePath : String
  deriving DecidableEq, Repr

/-- A remote printer agent holding a socket on the `/connectprinter` namespace.  The server
only ever reads `socketId`; `printerName` is the identity the agent announces in its
`printer-registered` message. -/
structure Agent where
  socketId : String
  printerName : String
  deriving DecidableEq, Repr

/-- Effects of the server that leave the process, in program order. -/
inductive Event where
  /-- The call `printJob.save()`; `ok` tells whether it resolved. -/
  | save (doc : PrintJob) (ok : Bool)
  /-- The call `PrintJob.findByIdAndUpdate(id, { status, updatedAt })`: the two fields are
  the whole update document. -/
  | findByIdAndUpdate (id : Nat) (status : String) (updatedAt : Nat) (ok : Bool)
  /-- The query `PrintJob.find().sort({ uploadedAt: -1 }).limit(50)`. -/
  | find (ok : Bool)
  /-- The call `printerIO.emit(event, msg)`: a broadcast on the namespace, delivered to the
  sockets connected at that moment (`recipients`). -/
  | emit (event : String) (msg : DispatchMessage) (recipients : List String)
  /-- A line written by `console.log`. -/
  | log (line : String)
  /-- A line written by `console.error`. -/
  | error (line : String)
  deriving DecidableEq, Repr

/-- The state of the server process and of the services it talks to. -/
structure Server where
  /-- The constant `__dirname`. -/
  dirname : String
  /-- The documents of the `PrintJob` collection, in insertion order. -/
  jobs : List PrintJob
  /-- The agents whose socket is connected to `printerIO`. -/
  sockets : List Agent
  /-- The effects performed so far, oldest first. -/
  trace : List Event
  deriving DecidableEq, Repr

/-- The multer file object (`req.file`) as far as the upload handler reads it. -/
structure UploadedFile where
  filename : String
  originalname : String
  path : String
  deriving DecidableEq, Repr

/-- The request of `POST /upload` after `upload.single('pdf')` ran: `file` is `req.file`
(absent when no file part was sent) and `printerName` is `req.body.printerName` (absent when
the field was not sent). -/
structure UploadRequest where
  file : Option UploadedFile
  printerName : Option String
  deriving DecidableEq, Repr

/-- The payload of a `job-status-update` message.  The handler reads `jobId` and `status`
only; `timestamp` is whatever time stamp the agent put on the message. -/
structure StatusReport where
  jobId : Nat
  status : String
  timestamp : Option Nat
  deriving DecidableEq, Repr

/-- The payload of a `printer-registered` message. -/
structure RegisteredData where
  printerName : String
  deriving DecidableEq, Repr

/-- JSON bodies sent by the HTTP handlers. -/
inductive Body where
  /-- The body `{ error }`. -/
  | error (error : String)
  /-- The body `{ error, details }`. -/
  | errorDetails (error details : String)
  /-- The body `{ success, message, jobId, printer, filename }`. -/
  | uploaded (success : Bool) (message : String) (jobId : Nat) (printer filename : String)
  /-- An array of job documents. -/
  | jobs (docs : List PrintJob)
  /-- One job document, or `null`. -/
  | job (doc : Option PrintJob)
  deriving DecidableEq, Repr

/-- An HTTP response: status code and JSON body. -/
structure Response where
  status : Nat
  body : Body
  deriving DecidableEq, Repr

/-! ## Primitive effects -/

/-- Appends one effect to the trace. -/
def record (e : Event) (s : Server) : Server :=
  { s with trace := s.trace ++ [e] }

/-- The call `console.log(line)`. -/
def consoleLog (line : String) (s : Server) : Server :=
  record (.log line) s

/-- The call `console.error(line)`. -/
def consoleError (line : String) (s : Server) : Server :=
  record (.error line) s

/-- The call `printJob.save()`: inserts the document, or (when the database call fails with
message `e`, `dbErr = some e`) throws and leaves the collection as it was. -/
def save (doc : PrintJob) (dbErr : Option String) (s : Server) : Except String Server :=
  match dbErr with
  | some e => .error e
  | none => .ok { s with jobs := s.jobs ++ [doc] }

/-- The call `printerIO.emit(event, msg)`: socket.io broadcasts to every socket connected
to the namespace. -/
def emit (event : String) (msg : DispatchMessage) (s : Server) : Server :=
  record (.emit event msg (s.sockets.map Agent.socketId)) s

/-- The document update `{ status, updatedAt }` applied to one job. -/
def setStatus (status : String) (updatedAt : Nat) (j : PrintJob) : PrintJob :=
  { j with status := status, updatedAt := some updatedAt }

/-- Applies `f` to the first document whose `_id` is `id`; a collection without such a
document is returned as it is (no upsert). -/
def updateById (id : Nat) (f : PrintJob → PrintJob) : List PrintJob → List PrintJob
  | [] => []
  | j :: js => if j._id = id then f j :: js else j :: updateById id f js

/-- The document whose `_id` is `id`, if any. -/
def findById (id : Nat) (jobs : List PrintJob) : Option PrintJob :=
  jobs.find? (fun j => decide (j._id = id))

/-- The call `PrintJob.findByIdAndUpdate(id, { status, updatedAt }, { new: returnNew })`.
Resolves to the matched document (after the update when `returnNew`, before it otherwise) or
to `null`; throws, without writing, when the database call fails. -/
def findByIdAndUpdate (id : Nat) (status : String) (updatedAt : Nat) (returnNew : Bool)
    (dbErr : Option String) (s : Server) : Except String (Server × Option PrintJob) :=
  match dbErr with
  | some e => .error e
  | none =>
    let s1 := { s with jobs := updateById id (setStatus status updatedAt) s.jobs }
    .ok (s1, if returnNew then findById id s1.jobs else findById id s.jobs)

/-- The order `{ uploadedAt: -1 }`: `a` may precede `b` when `a` is at least as recent. -/
def moreRecent (a b : PrintJob) : Prop := b.uploadedAt ≤ a.uploadedAt

instance : DecidableRel moreRecent :=
  fun a b => inferInstanceAs (Decidable (b.uploadedAt ≤ a.uploadedAt))

instance : IsTotal PrintJob moreRecent := ⟨fun a b => Nat.le_total b.uploadedAt a.uploadedAt⟩

instance : IsTrans PrintJob moreRecent :=
  ⟨fun _ _ _ hab hbc => Nat.le_trans hbc hab⟩

/-- The query `PrintJob.find().sort({ uploadedAt: -1 }).limit(50)`. -/
def findSortLimit (jobs : List PrintJob) : List PrintJob :=
  (jobs.insertionSort moreRecent).take 50

/-- The function `path.join(a, b)` on two plain path segments. -/
def pathJoin (a b : String) : String := a ++ "/" ++ b

/-! ## HTTP handlers -/

/-- The document built by `new PrintJob({ .. })` in `POST /upload`. -/
def newPrintJob (file : UploadedFile) (printerName : String) (now newId : Nat) : PrintJob :=
  { _id := newId
    filename := file.filename
    originalName := file.originalname
    filePath := file.path
    fileUrl := "/uploads/" ++ file.filename
    printerName := printerName
    status := "pending"
    uploadedAt := now
    updatedAt := none }

/-- The payload handed to `printerIO.emit('new-print-job', ..)` in `POST /upload`. -/
def dispatchMessage (dirname : String) (printJob : PrintJob) (printerName : String) :
    DispatchMessage :=
  { jobId := printJob._id
    printerName := printerName
    fileUrl := printJob.fileUrl
    filename := printJob.originalName
    filePath := pathJoin dirname printJob.filePath }

/-- The handler of `POST /upload`.  `now` is `new Date()`, `newId` the `_id` that
`new PrintJob(..)` generates, `dbErr` the outcome of `printJob.save()`. -/
def upload (req : UploadRequest) (now newId : Nat) (dbErr : Option String) (s : Server) :
    Server × Response :=
  match req.file with
  | none => (s, ⟨400, .error "No PDF file uploaded"⟩)
  | some file =>
    match req.printerName with
    | none => (s, ⟨400, .error "Printer name is required"⟩)
    | some printerName =>
      if printerName = "" then (s, ⟨400, .error "Printer name is required"⟩)
      else
        let printJob := newPrintJob file printerName now newId
        match save printJob dbErr s with
        | .error e =>
          let s1 := record (.save printJob false) s
          let s2 := consoleError ("Upload error: " ++ e) s1
          (s2, ⟨500, .errorDetails "Failed to upload PDF" e⟩)
        | .ok s0 =>
          let s1 := record (.save printJob true) s0
          let s2 := emit "new-print-job" (dispatchMessage s.dirname printJob printerName) s1
          let s3 := consoleLog ("New print job created for printer: " ++ printerName) s2
          let s4 := consoleLog ("File: " ++ printJob.originalName) s3
          let s5 := consoleLog ("Job ID: " ++ toString printJob._id) s4
          (s5, ⟨200, .uploaded true "PDF uploaded successfully and sent to printer"
            printJob._id printerName printJob.originalName⟩)

/-- The handler of `GET /api/jobs`. -/
def apiJobs (dbErr : Option String) (s : Server) : Server × Response :=
  match dbErr with
  | some _ => (record (.find false) s, ⟨500, .error "Failed to fetch jobs"⟩)
  | none => (record (.find true) s, ⟨200, .jobs (findSortLimit s.jobs)⟩)

/-- The handler of `PUT /api/jobs/:id/status`: `id` is `req.params.id`, `status` is
`req.body.status`, `now` is `new Date()`. -/
def apiJobsStatus (id : Nat) (status : String) (now : Nat) (dbErr : Option String)
    (s : Server) : Server × Response :=
  match findByIdAndUpdate id status now true dbErr s with
  | .error _ =>
    (record (.findByIdAndUpdate id status now false) s,
      ⟨500, .error "Failed to update job status"⟩)
  | .ok (s0, job) =>
    (record (.findByIdAndUpdate id status now true) s0, ⟨200, .job job⟩)

/-! ## Socket handlers -/

/-- The handler of `connection` on `printerIO`: the socket has joined the namespace. -/
def connection (agent : Agent) (s : Server) : Server :=
  consoleLog ("✓ Printer agent connected: " ++ agent.socketId)
    { s with sockets := s.sockets ++ [agent] }

/-- The handler of `printer-registered`. -/
def printerRegistered (data : RegisteredData) (s : Server) : Server :=
  consoleLog ("✓ Printer registered: " ++ data.printerName) s

/-- The handler of `job-status-update`; `now` is `new Date()`. -/
def jobStatusUpdate (data : StatusReport) (now : Nat) (dbErr : Option String) (s : Server) :
    Server :=
  let s1 := consoleLog
    ("Status update for job " ++ toString data.jobId ++ ": " ++ data.status) s
  match findByIdAndUpdate data.jobId data.status now false dbErr s1 with
  | .error e =>
    let s2 := record (.findByIdAndUpdate data.jobId data.status now false) s1
    consoleError ("Failed to update job status: " ++ e) s2
  | .ok (s0, _) => record (.findByIdAndUpdate data.jobId data.status now true) s0

/-- The handler of `disconnect`: the socket has left the namespace. -/
def disconnect (socketId : String) (s : Server) : Server :=
  consoleLog ("✗ Printer agent disconnected: " ++ socketId)
    { s with sockets := s.sockets.filter (fun a => decide (a.socketId ≠ socketId)) }

/-! ## Observations on states -/

/-- The `new-print-job` broadcasts of a trace, oldest first. -/
def emitted (t : List Event) : List Event :=
  t.filter (fun e => match e with
    | .emit _ _ _ => true
    | _ => false)

/-- The database write attempts (`findByIdAndUpdate` calls) of a trace. -/
def writeAttempts (t : List Event) : List Event :=
  t.filter (fun e => match e with
    | .findByIdAndUpdate _ _ _ _ => true
    | _ => false)

/-- The empty server: no documents, no sockets, nothing done yet. -/
def init (dirname : String) : Server :=
  { dirname := dirname, jobs := [], sockets := [], trace := [] }

/-! ## The spec's vocabulary -/

/-- The legal transition table of the spec (§4.3), in the spec's words:
`pending/dispatched → acknowledged`, `acknowledged → printing`, `printing → completed`, and
`{pending, dispatched, acknowledged, printing} → failed`. -/
def specLegalTransition (old new : String) : Bool :=
  ((old = "pending" ∨ old = "dispatched") ∧ new = "acknowledged")
  ∨ (old = "acknowledged" ∧ new = "printing")
  ∨ (old = "printing" ∧ new = "completed")
  ∨ ((old = "pending" ∨ old = "dispatched" ∨ old = "acknowledged" ∨ old = "printing")
      ∧ new = "failed")

/-- The terminal statuses of the spec (§3): `completed` and `failed`. -/
def specTerminal (status : String) : Bool :=
  status = "completed" ∨ status = "failed"

/-- What a status write for document `id` may do to one document: every field other than
`status` and `updatedAt` is kept, a document with another `_id` is kept whole, and a document
that did change carries the written status and the time of the write. -/
def StatusWriteFrame (id : Nat) (status : String) (now : Nat) (before after : PrintJob) :
    Prop :=
  after._id = before._id ∧ after.originalName = before.originalName
  ∧ after.filename = before.filename ∧ after.filePath = before.filePath
  ∧ after.fileUrl = before.fileUrl ∧ after.printerName = before.printerName
  ∧ after.uploadedAt = before.uploadedAt
  ∧ (before._id ≠ id → after = before)
  ∧ (after = before ∨ (after.status = status ∧ after.updatedAt = some now))

instance (id : Nat) (status : String) (now : Nat) (before after : PrintJob) :
    Decidable (StatusWriteFrame id status now before after) := by
  unfold StatusWriteFrame; infer_instance

/-- The agents among `agents` that announce printer `printerName`. -/
def agentsFor (printerName : String) (agents : List Agent) : List Agent :=
  agents.filter (fun a => decide (a.printerName = printerName))

/-! ## Concrete inputs -/

/-- An upload of `report.pdf` for printer `lobby-1`. -/
def lobbyUpload : UploadRequest :=
  { file := some { filename := "1-report.pdf", originalname := "report.pdf",
                   path := "uploads/1-report.pdf" }
    printerName := some "lobby-1" }

/-- The job that `lobbyUpload` creates at time 10 with `_id` 1. -/
def lobbyJob : PrintJob :=
  { _id := 1, filename := "1-report.pdf", originalName := "report.pdf",
    filePath := "uploads/1-report.pdf", fileUrl := "/uploads/1-report.pdf",
    printerName := "lobby-1", status := "pending", uploadedAt := 10, updatedAt := none }

/-- The server after `lobbyUpload` was handled on an empty server (no agent connected). -/
def afterUpload : Server :=
  (upload lobbyUpload 10 1 none (init "/srv")).1

/-- The server `afterUpload` after the agent reported `completed` at time 100. -/
def afterCompleted : Server :=
  jobStatusUpdate { jobId := 1, status := "completed", timestamp := some 100 } 100 none
    afterUpload

/-- A server with two connected agents, one for `lobby-1` and one for `floor-2`. -/
def twoAgents : Server :=
  connection { socketId := "s2", printerName := "floor-2" }
    (connection { socketId := "s1", printerName := "lobby-1" } (init "/srv"))

/-- An upload of `report.pdf` for printer `attic-9`, for which no agent is connected in
`twoAgents`. -/
def atticUpload : UploadRequest :=
  { lobbyUpload with printerName := some "attic-9" }

/-- An upload without a file part. -/
def noFileUpload : UploadRequest :=
  { file := none, printerName := some "lobby-1" }

/-- An upload with a file but an empty printer name. -/
def noPrinterUpload : UploadRequest :=
  { lobbyUpload with printerName := some "" }

/-- Three stored jobs with upload times 10, 30, 20. -/
def threeJobs : List PrintJob :=
  [lobbyJob, { lobbyJob with _id := 2, uploadedAt := 30 },
    { lobbyJob with _id := 3, uploadedAt := 20 }]

end CloudPrinter

namespace CloudPrinter

/-! ## Lemmas on the collection primitives -/

theorem findById_updateById_found (id : Nat) (f : PrintJob → PrintJob)
    (hf : ∀ j, (f j)._id = j._id) (js : List PrintJob) (j : PrintJob)
    (h : findById id js = some j) : findById id (updateById id f js) = some (f j) := by
  induction js with
  | nil => simp [findById] at h
  | cons k ks ih =>
    by_cases hk : k._id = id
    · have hj : k = j := by simpa [findById, List.find?, hk] using h
      subst hj
      simp [updateById, findById, List.find?, hk, hf]
    · have hj : findById id ks = some j := by simpa [findById, List.find?, hk] using h
      have := ih hj
      simpa [updateById, findById, List.find?, hk] using this

theorem updateById_not_found (id : Nat) (f : PrintJob → PrintJob) (js : List PrintJob)
    (h : findById id js = none) : updateById id f js = js := by
  induction js with
  | nil => rfl
  | cons k ks ih =>
    by_cases hk : k._id = id
    · simp [findById, List.find?, hk] at h
    · have hj : findById id ks = none := by simpa [findById, List.find?, hk] using h
      simp [updateById, hk, ih hj]

theorem findById_updateById_other (id other : Nat) (f : PrintJob → PrintJob)
    (hf : ∀ j, (f j)._id = j._id) (js : List PrintJob) (h : other ≠ id) :
    findById other (updateById id f js) = findById other js := by
  induction js with
  | nil => rfl
  | cons k ks ih =>
    by_cases hk : k._id = id
    · simp [updateById, findById, List.find?, hk, hf, Ne.symm h]
    · by_cases hko : k._id = other
      · simp [updateById, findById, List.find?, hko, h]
      · have := ih
        simpa [updateById, findById, List.find?, hk, hko] using this

theorem setStatus_frame (id : Nat) (status : String) (now : Nat) (j : PrintJob)
    (h : j._id = id) : StatusWriteFrame id status now j (setStatus status now j) := by
  simp [StatusWriteFrame, setStatus, h]

theorem frame_refl (id : Nat) (status : String) (now : Nat) (j : PrintJob) :
    StatusWriteFrame id status now j j := by
  simp [StatusWriteFrame]

theorem forall₂_frame_refl (id : Nat) (status : String) (now : Nat) (js : List PrintJob) :
    List.Forall₂ (StatusWriteFrame id status now) js js := by
  induction js with
  | nil => exact List.Forall₂.nil
  | cons k ks ih => exact List.Forall₂.cons (frame_refl id status now k) ih

theorem updateById_frame (id : Nat) (status : String) (now : Nat) (js : List PrintJob) :
    List.Forall₂ (StatusWriteFrame id status now) js
      (updateById id (setStatus status now) js) := by
  induction js with
  | nil => exact List.Forall₂.nil
  | cons k ks ih =>
    by_cases hk : k._id = id
    · simp only [updateById, hk, if_true]
      exact List.Forall₂.cons (setStatus_frame id status now k hk)
        (forall₂_frame_refl id status now ks)
    · simp only [updateById, hk, if_false]
      exact List.Forall₂.cons (frame_refl id status now k) ih

theorem jobStatusUpdate_jobs_ok (data : StatusReport) (now : Nat) (s : Server) :
    (jobStatusUpdate data now none s).jobs
      = updateById data.jobId (setStatus data.status now) s.jobs := rfl

theorem jobStatusUpdate_jobs_err (data : StatusReport) (now : Nat) (e : String) (s : Server) :
    (jobStatusUpdate data now (some e) s).jobs = s.jobs := rfl

theorem apiJobsStatus_jobs_ok (id : Nat) (status : String) (now : Nat) (s : Server) :
    (apiJobsStatus id status now none s).1.jobs
      = updateById id (setStatus status now) s.jobs := rfl

theorem apiJobsStatus_jobs_err (id : Nat) (status : String) (now : Nat) (e : String)
    (s : Server) : (apiJobsStatus id status now (some e) s).1.jobs = s.jobs := rfl

theorem setStatus_id (status : String) (now : Nat) (j : PrintJob) :
    (setStatus status now j)._id = j._id := rfl

theorem emitted_append (t u : List Event) : emitted (t ++ u) = emitted t ++ emitted u := by
  simp [emitted]

theorem writeAttempts_append (t u : List Event) :
    writeAttempts (t ++ u) = writeAttempts t ++ writeAttempts u := by
  simp [writeAttempts]

/-! ## Status reports from agents (`job-status-update`) -/

/-- C1, as stated, fails.  On the store reached by one upload and one `completed` report, the
job is in the terminal status `completed`; the table of the spec has no transition from
`completed` to `pending`; yet handling a report `pending` for it stores `pending`. -/
theorem jobStatusUpdate_leaves_terminal_status :
    (findById 1 afterCompleted.jobs).map PrintJob.status = some "completed"
    ∧ specTerminal "completed" = true
    ∧ specLegalTransition "completed" "pending" = false
    ∧ (findById 1
        (jobStatusUpdate { jobId := 1, status := "pending", timestamp := some 200 } 200 none
          afterCompleted).jobs).map PrintJob.status = some "pending" := by
  decide

/-- C1, amended.  The `job-status-update` handler consults no transition table: whenever the
reported job is stored and the database write succeeds, the stored record of that job becomes
the old record with the reported status (whatever the old status was) and `updatedAt` set to
the time of the write, and the record found under any other id is the one found before. -/
theorem jobStatusUpdate_stores_reported_status (s : Server) (data : StatusReport) (now : Nat)
    (j : PrintJob) (h : findById data.jobId s.jobs = some j) :
    findById data.jobId (jobStatusUpdate data now none s).jobs
      = some { j with status := data.status, updatedAt := some now }
    ∧ ∀ other, other ≠ data.jobId →
        findById other (jobStatusUpdate data now none s).jobs = findById other s.jobs := by
  rw [jobStatusUpdate_jobs_ok]
  refine ⟨?_, fun other ho => ?_⟩
  · exact findById_updateById_found data.jobId _ (setStatus_id data.status now) s.jobs j h
  · exact findById_updateById_other data.jobId other _ (setStatus_id data.status now) s.jobs ho

/-- Witness of `jobStatusUpdate_stores_reported_status`: the completed job of
`afterCompleted` and a report `pending`. -/
theorem jobStatusUpdate_stores_reported_status_witness :
    findById 1 afterCompleted.jobs
      = some { lobbyJob with status := "completed", updatedAt := some 100 }
    ∧ findById 1
        (jobStatusUpdate { jobId := 1, status := "pending", timestamp := none } 200 none
          afterCompleted).jobs
      = some { lobbyJob with status := "pending", updatedAt := some 200 } :=
  ⟨by decide,
    (jobStatusUpdate_stores_reported_status afterCompleted
      { jobId := 1, status := "pending", timestamp := none } 200
      { lobbyJob with status := "completed", updatedAt := some 100 } (by decide)).1⟩

/-- C2, as stated, fails.  The job of `afterCompleted` has `updatedAt = 100`; a report stamped
50 (older) handled at time 200 is not discarded: the stored status and `updatedAt` both
change. -/
theorem jobStatusUpdate_applies_stale_report :
    (findById 1 afterCompleted.jobs).map PrintJob.updatedAt = some (some 100)
    ∧ (findById 1 afterCompleted.jobs).map PrintJob.status = some "completed"
    ∧ (findById 1
        (jobStatusUpdate { jobId := 1, status := "printing", timestamp := some 50 } 200 none
          afterCompleted).jobs).map PrintJob.status = some "printing"
    ∧ (findById 1
        (jobStatusUpdate { jobId := 1, status := "printing", timestamp := some 50 } 200 none
          afterCompleted).jobs).map PrintJob.updatedAt = some (some 200) := by
  decide

/-- C2, amended.  The `job-status-update` handler never reads the time stamp of a report:
the outcome is the same for every time stamp (also one older than the job's `updatedAt`), and
whenever the reported job is stored and the write succeeds the stored status becomes the
reported one and `updatedAt` the server's clock at the write. -/
theorem jobStatusUpdate_ignores_timestamp (s : Server) (data : StatusReport) (now : Nat)
    (j : PrintJob) (h : findById data.jobId s.jobs = some j) :
    (∀ ts dbErr, jobStatusUpdate { data with timestamp := ts } now dbErr s
        = jobStatusUpdate data now dbErr s)
    ∧ (findById data.jobId (jobStatusUpdate data now none s).jobs).map PrintJob.status
        = some data.status
    ∧ (findById data.jobId (jobStatusUpdate data now none s).jobs).map PrintJob.updatedAt
        = some (some now) := by
  refine ⟨fun ts dbErr => rfl, ?_, ?_⟩
  · rw [jobStatusUpdate_jobs_ok,
      findById_updateById_found data.jobId _ (setStatus_id data.status now) s.jobs j h]
    rfl
  · rw [jobStatusUpdate_jobs_ok,
      findById_updateById_found data.jobId _ (setStatus_id data.status now) s.jobs j h]
    rfl

/-- Witness of `jobStatusUpdate_ignores_timestamp`: a report stamped 50 for the job of
`afterCompleted`, whose `updatedAt` is 100. -/
theorem jobStatusUpdate_ignores_timestamp_witness :
    findById 1 afterCompleted.jobs
      = some { lobbyJob with status := "completed", updatedAt := some 100 }
    ∧ (findById 1
        (jobStatusUpdate { jobId := 1, status := "printing", timestamp := some 50 } 200 none
          afterCompleted).jobs).map PrintJob.updatedAt = some (some 200) :=
  ⟨by decide,
    (jobStatusUpdate_ignores_timestamp afterCompleted
      { jobId := 1, status := "printing", timestamp := some 50 } 200
      { lobbyJob with status := "completed", updatedAt := some 100 } (by decide)).2.2⟩

/-- C8, as stated, fails.  When the write of a report fails, the handler has called the
database once (no retry), has written two console lines, has sent nothing on any socket, and
the report is gone: the store is as before. -/
theorem jobStatusUpdate_failed_write_not_surfaced :
    (jobStatusUpdate { jobId := 1, status := "printing", timestamp := some 150 } 150
        (some "connection lost") afterCompleted).trace
      = afterCompleted.trace ++
          [.log "Status update for job 1: printing",
           .findByIdAndUpdate 1 "printing" 150 false,
           .error "Failed to update job status: connection lost"]
    ∧ (jobStatusUpdate { jobId := 1, status := "printing", timestamp := some 150 } 150
        (some "connection lost") afterCompleted).jobs = afterCompleted.jobs := by
  decide

/-- C8, amended.  For every status report whose database write fails, the handler makes
exactly one write attempt, writes the failure to the server console, emits nothing to any
agent and leaves the store unchanged. -/
theorem jobStatusUpdate_failed_write_logged_once (s : Server) (data : StatusReport)
    (now : Nat) (e : String) :
    writeAttempts (jobStatusUpdate data now (some e) s).trace
      = writeAttempts s.trace ++ [.findByIdAndUpdate data.jobId data.status now false]
    ∧ (jobStatusUpdate data now (some e) s).trace
      = s.trace ++
          [.log ("Status update for job " ++ toString data.jobId ++ ": " ++ data.status),
           .findByIdAndUpdate data.jobId data.status now false,
           .error ("Failed to update job status: " ++ e)]
    ∧ emitted (jobStatusUpdate data now (some e) s).trace = emitted s.trace
    ∧ (jobStatusUpdate data now (some e) s).jobs = s.jobs := by
  have ht : (jobStatusUpdate data now (some e) s).trace
      = s.trace ++
          [.log ("Status update for job " ++ toString data.jobId ++ ": " ++ data.status),
           .findByIdAndUpdate data.jobId data.status now false,
           .error ("Failed to update job status: " ++ e)] := by
    simp [jobStatusUpdate, findByIdAndUpdate, consoleLog, consoleError, record]
  refine ⟨?_, ht, ?_, rfl⟩
  · rw [ht, writeAttempts_append]; simp [writeAttempts]
  · rw [ht, emitted_append]; simp [emitted]

/-! ## Status writes: frame -/

/-- C7.  A status write, through `job-status-update` or through `PUT /api/jobs/:id/status`,
whether or not the database call succeeds, relates the collection before and after position
by position (so no document is added or removed): each document keeps `_id`, `originalName`,
`filename`, `filePath`, `fileUrl`, `printerName` and `uploadedAt`, a document with another id
is unchanged, and a changed document carries the written status and `updatedAt = now`.  When
the write succeeds and the job is stored, it is that job's `status` and `updatedAt` that are
set. -/
theorem status_write_changes_only_status_and_updatedAt (s : Server) (id : Nat)
    (status : String) (now : Nat) (dbErr : Option String) (ts : Option Nat) :
    List.Forall₂ (StatusWriteFrame id status now) s.jobs
      (jobStatusUpdate { jobId := id, status := status, timestamp := ts } now dbErr s).jobs
    ∧ List.Forall₂ (StatusWriteFrame id status now) s.jobs
      (apiJobsStatus id status now dbErr s).1.jobs
    ∧ (jobStatusUpdate { jobId := id, status := status, timestamp := ts } now dbErr s).jobs.length
        = s.jobs.length
    ∧ (apiJobsStatus id status now dbErr s).1.jobs.length = s.jobs.length
    ∧ (∀ j, findById id s.jobs = some j →
        findById id
            (jobStatusUpdate { jobId := id, status := status, timestamp := ts } now none s).jobs
          = some { j with status := status, updatedAt := some now }
        ∧ findById id (apiJobsStatus id status now none s).1.jobs
          = some { j with status := status, updatedAt := some now }) := by
  have h1 : List.Forall₂ (StatusWriteFrame id status now) s.jobs
      (jobStatusUpdate { jobId := id, status := status, timestamp := ts } now dbErr s).jobs := by
    cases dbErr with
    | none => rw [jobStatusUpdate_jobs_ok]; exact updateById_frame id status now s.jobs
    | some e => rw [jobStatusUpdate_jobs_err]; exact forall₂_frame_refl id status now s.jobs
  have h2 : List.Forall₂ (StatusWriteFrame id status now) s.jobs
      (apiJobsStatus id status now dbErr s).1.jobs := by
    cases dbErr with
    | none => rw [apiJobsStatus_jobs_ok]; exact updateById_frame id status now s.jobs
    | some e => rw [apiJobsStatus_jobs_err]; exact forall₂_frame_refl id status now s.jobs
  refine ⟨h1, h2, h1.length_eq.symm, h2.length_eq.symm, fun j hj => ⟨?_, ?_⟩⟩
  · rw [jobStatusUpdate_jobs_ok]
    exact findById_updateById_found id _ (setStatus_id status now) s.jobs j hj
  · rw [apiJobsStatus_jobs_ok]
    exact findById_updateById_found id _ (setStatus_id status now) s.jobs j hj

/-! ## Manual override (`PUT /api/jobs/:id/status`) -/

/-- C9, as stated, fails on its last part.  Forcing the completed job of `afterCompleted` back
to `pending` performs one effect, the update call whose document is `{ status, updatedAt }`,
and leaves a store equal to the one an agent report of the same status leaves: nothing
records that the write was an override. -/
theorem apiJobsStatus_records_no_audit_flag :
    apiJobsStatus 1 "pending" 200 none afterCompleted
      = ({ afterCompleted with
            jobs := [{ lobbyJob with status := "pending", updatedAt := some 200 }]
            trace := afterCompleted.trace ++ [.findByIdAndUpdate 1 "pending" 200 true] },
         ⟨200, .job (some { lobbyJob with status := "pending", updatedAt := some 200 })⟩)
    ∧ (apiJobsStatus 1 "pending" 200 none afterCompleted).1.jobs
      = (jobStatusUpdate { jobId := 1, status := "pending", timestamp := none } 200 none
          afterCompleted).jobs := by
  decide

/-- C9, amended.  For every stored job, whatever its current status, and every requested
status, when the database write succeeds `PUT /api/jobs/:id/status` validates nothing: the
stored status of the job becomes the requested one, the response is 200 with the updated
record (not the one before the update), and the only effect is the update call with the
document `{ status, updatedAt }`: the store is the one a `job-status-update` report leaves,
without any audit flag. -/
theorem apiJobsStatus_forces_status (s : Server) (id : Nat) (status : String) (now : Nat)
    (j : PrintJob) (h : findById id s.jobs = some j) :
    findById id (apiJobsStatus id status now none s).1.jobs
      = some { j with status := status, updatedAt := some now }
    ∧ (apiJobsStatus id status now none s).2
      = ⟨200, .job (some { j with status := status, updatedAt := some now })⟩
    ∧ (apiJobsStatus id status now none s).1.trace
      = s.trace ++ [.findByIdAndUpdate id status now true]
    ∧ ∀ ts, (apiJobsStatus id status now none s).1.jobs
      = (jobStatusUpdate { jobId := id, status := status, timestamp := ts } now none s).jobs := by
  have hf := findById_updateById_found id _ (setStatus_id status now) s.jobs j h
  refine ⟨?_, ?_, rfl, fun ts => rfl⟩
  · rw [apiJobsStatus_jobs_ok]; exact hf
  · simp only [apiJobsStatus, findByIdAndUpdate, if_true]
    rw [hf]; rfl

/-- Witness of `apiJobsStatus_forces_status`: the completed job of `afterCompleted` forced to
`pending`. -/
theorem apiJobsStatus_forces_status_witness :
    findById 1 afterCompleted.jobs
      = some { lobbyJob with status := "completed", updatedAt := some 100 }
    ∧ (apiJobsStatus 1 "pending" 200 none afterCompleted).2
      = ⟨200, .job (some { lobbyJob with status := "pending", updatedAt := some 200 })⟩ :=
  ⟨by decide,
    (apiJobsStatus_forces_status afterCompleted 1 "pending" 200
      { lobbyJob with status := "completed", updatedAt := some 100 } (by decide)).2.1⟩

/-! ## Upload (`POST /upload`) -/

theorem upload_ok (file : UploadedFile) (printerName : String) (hp : printerName ≠ "")
    (now newId : Nat) (s : Server) :
    upload { file := some file, printerName := some printerName } now newId none s
      = ({ s with
            jobs := s.jobs ++ [newPrintJob file printerName now newId]
            trace := s.trace ++
              [.save (newPrintJob file printerName now newId) true,
               .emit "new-print-job"
                 (dispatchMessage s.dirname (newPrintJob file printerName now newId)
                   printerName)
                 (s.sockets.map Agent.socketId),
               .log ("New print job created for printer: " ++ printerName),
               .log ("File: " ++ file.originalname),
               .log ("Job ID: " ++ toString newId)] },
         ⟨200, .uploaded true "PDF uploaded successfully and sent to printer" newId
            printerName file.originalname⟩) := by
  simp [upload, hp, save, emit, consoleLog, record, newPrintJob]

theorem upload_save_failed (file : UploadedFile) (printerName : String)
    (hp : printerName ≠ "") (now newId : Nat) (e : String) (s : Server) :
    upload { file := some file, printerName := some printerName } now newId (some e) s
      = ({ s with
            trace := s.trace ++
              [.save (newPrintJob file printerName now newId) false,
               .error ("Upload error: " ++ e)] },
         ⟨500, .errorDetails "Failed to upload PDF" e⟩) := by
  simp [upload, hp, save, consoleError, record]

/-- C3.  For an upload with a file and a non-empty printer name: when the save succeeds, the
new record is in the collection with status `pending` and the effects of the handler are, in
this order, the successful save of that record, then one `new-print-job` broadcast, then
three console lines; when the save fails with message `e`, the collection and the broadcasts
of the trace are unchanged and the response is 500 `Failed to upload PDF` with details `e`. -/
theorem upload_persists_before_dispatch (file : UploadedFile) (printerName : String)
    (hp : printerName ≠ "") (now newId : Nat) (s : Server) :
    (newPrintJob file printerName now newId).status = "pending"
    ∧ (upload ⟨some file, some printerName⟩ now newId none s).1.jobs
        = s.jobs ++ [newPrintJob file printerName now newId]
    ∧ (upload ⟨some file, some printerName⟩ now newId none s).1.trace
        = s.trace ++
            [.save (newPrintJob file printerName now newId) true,
             .emit "new-print-job"
               (dispatchMessage s.dirname (newPrintJob file printerName now newId) printerName)
               (s.sockets.map Agent.socketId),
             .log ("New print job created for printer: " ++ printerName),
             .log ("File: " ++ file.originalname),
             .log ("Job ID: " ++ toString newId)]
    ∧ ∀ e,
        emitted (upload ⟨some file, some printerName⟩ now newId (some e) s).1.trace
          = emitted s.trace
        ∧ (upload ⟨some file, some printerName⟩ now newId (some e) s).1.jobs = s.jobs
        ∧ (upload ⟨some file, some printerName⟩ now newId (some e) s).2
          = ⟨500, .errorDetails "Failed to upload PDF" e⟩ := by
  refine ⟨rfl, ?_, ?_, fun e => ?_⟩
  · rw [upload_ok file printerName hp]
  · rw [upload_ok file printerName hp]
  · rw [upload_save_failed file printerName hp]
    refine ⟨?_, rfl, rfl⟩
    show emitted (s.trace ++ _) = _
    rw [emitted_append]; simp [emitted]

/-- Witness of `upload_persists_before_dispatch`: `report.pdf` for `lobby-1` on the server
with two connected agents. -/
theorem upload_persists_before_dispatch_witness :
    ("lobby-1" : String) ≠ ""
    ∧ (upload lobbyUpload 10 1 none twoAgents).1.jobs = [lobbyJob]
    ∧ (upload lobbyUpload 10 1 (some "disk full") twoAgents).2
        = ⟨500, .errorDetails "Failed to upload PDF" "disk full"⟩ :=
  ⟨by decide,
    (upload_persists_before_dispatch
      { filename := "1-report.pdf", originalname := "report.pdf",
        path := "uploads/1-report.pdf" } "lobby-1" (by decide) 10 1 twoAgents).2.1,
    ((upload_persists_before_dispatch
      { filename := "1-report.pdf", originalname := "report.pdf",
        path := "uploads/1-report.pdf" } "lobby-1" (by decide) 10 1 twoAgents).2.2.2
      "disk full").2.2⟩

/-- C10.  An upload without a file, or with a file but a missing or empty printer name, is
answered with 400 (`No PDF file uploaded` when the file is missing, whatever the printer
name; `Printer name is required` otherwise) and the server state is returned as it was: no
job is created and nothing is emitted, whatever the database would have answered. -/
theorem upload_rejects_incomplete_request (req : UploadRequest) (now newId : Nat)
    (dbErr : Option String) (s : Server)
    (h : req.file = none ∨ req.printerName = none ∨ req.printerName = some "") :
    upload req now newId dbErr s
      = (s, ⟨400, .error (if req.file = none then "No PDF file uploaded"
                          else "Printer name is required")⟩)
    ∧ (upload req now newId dbErr s).1.jobs = s.jobs
    ∧ emitted (upload req now newId dbErr s).1.trace = emitted s.trace := by
  have key : upload req now newId dbErr s
      = (s, ⟨400, .error (if req.file = none then "No PDF file uploaded"
                          else "Printer name is required")⟩) := by
    obtain ⟨file, printerName⟩ := req
    cases file with
    | none => simp [upload]
    | some f =>
      rcases h with h | h | h
      · simp at h
      · simp only at h; subst h; simp [upload]
      · simp only at h; subst h; simp [upload]
  refine ⟨key, ?_, ?_⟩ <;> rw [key]

/-- Witness of `upload_rejects_incomplete_request`: a request without a file. -/
theorem upload_rejects_incomplete_request_witness :
    upload noFileUpload 10 1 none twoAgents
      = (twoAgents, ⟨400, .error "No PDF file uploaded"⟩) :=
  (upload_rejects_incomplete_request noFileUpload 10 1 none twoAgents (Or.inl rfl)).1

/-! ## Dispatch -/

/-- C4, as stated, fails.  With agents `s1` (for `lobby-1`) and `s2` (for `floor-2`)
connected, the dispatch of a job for `lobby-1` is delivered to both sockets, `s2` included;
and the dispatch of a job for `attic-9`, for which no agent is connected, is delivered to
both sockets as well. -/
theorem upload_dispatch_reaches_other_agents :
    agentsFor "lobby-1" twoAgents.sockets = [{ socketId := "s1", printerName := "lobby-1" }]
    ∧ emitted (upload lobbyUpload 10 1 none twoAgents).1.trace
        = [.emit "new-print-job"
            { jobId := 1, printerName := "lobby-1", fileUrl := "/uploads/1-report.pdf",
              filename := "report.pdf", filePath := "/srv/uploads/1-report.pdf" }
            ["s1", "s2"]]
    ∧ agentsFor "attic-9" twoAgents.sockets = []
    ∧ emitted (upload atticUpload 10 1 none twoAgents).1.trace
        = [.emit "new-print-job"
            { jobId := 1, printerName := "attic-9", fileUrl := "/uploads/1-report.pdf",
              filename := "report.pdf", filePath := "/srv/uploads/1-report.pdf" }
            ["s1", "s2"]] := by
  decide

/-- C4, amended.  For every newly created job with target printer P and every set of
connected agents, the dispatch step of the upload handler broadcasts one `new-print-job`
message, carrying P as `printerName`, to the socket of every connected agent, whatever
printer that agent announced; the recipients are empty exactly when no agent at all is
connected; and the job is stored with status `pending` in every case. -/
theorem upload_dispatch_is_a_broadcast (file : UploadedFile) (printerName : String)
    (hp : printerName ≠ "") (now newId : Nat) (s : Server) :
    emitted (upload ⟨some file, some printerName⟩ now newId none s).1.trace
      = emitted s.trace ++
          [.emit "new-print-job"
            (dispatchMessage s.dirname (newPrintJob file printerName now newId) printerName)
            (s.sockets.map Agent.socketId)]
    ∧ (dispatchMessage s.dirname (newPrintJob file printerName now newId)
        printerName).printerName = printerName
    ∧ (∀ a ∈ s.sockets, a.socketId ∈ s.sockets.map Agent.socketId)
    ∧ (s.sockets.map Agent.socketId = [] ↔ s.sockets = [])
    ∧ (upload ⟨some file, some printerName⟩ now newId none s).1.jobs
        = s.jobs ++ [{ newPrintJob file printerName now newId with status := "pending" }] := by
  rw [upload_ok file printerName hp]
  refine ⟨?_, rfl, fun a ha => List.mem_map_of_mem _ ha, List.map_eq_nil_iff, rfl⟩
  show emitted (s.trace ++ _) = _
  rw [emitted_append]; simp [emitted]

/-- Witness of `upload_dispatch_is_a_broadcast`: `report.pdf` for `attic-9` on the server
with agents for `lobby-1` and `floor-2`. -/
theorem upload_dispatch_is_a_broadcast_witness :
    ("attic-9" : String) ≠ ""
    ∧ emitted (upload atticUpload 10 1 none twoAgents).1.trace
      = emitted twoAgents.trace ++
          [.emit "new-print-job"
            (dispatchMessage twoAgents.dirname
              (newPrintJob
                { filename := "1-report.pdf", originalname := "report.pdf",
                  path := "uploads/1-report.pdf" } "attic-9" 10 1) "attic-9")
            (twoAgents.sockets.map Agent.socketId)] :=
  ⟨by decide,
    (upload_dispatch_is_a_broadcast
      { filename := "1-report.pdf", originalname := "report.pdf",
        path := "uploads/1-report.pdf" } "attic-9" (by decide) 10 1 twoAgents).1⟩

/-- C5, as stated, fails.  A job is uploaded for `lobby-1` while no agent is connected (its
broadcast has no recipient); then an agent connects and announces `lobby-1`.  Nothing is
emitted by the connection or the announcement, and the job is still `pending`, not
`dispatched`. -/
theorem printerRegistered_does_not_redeliver :
    emitted afterUpload.trace
      = [.emit "new-print-job"
          { jobId := 1, printerName := "lobby-1", fileUrl := "/uploads/1-report.pdf",
            filename := "report.pdf", filePath := "/srv/uploads/1-report.pdf" } []]
    ∧ emitted (printerRegistered { printerName := "lobby-1" }
        (connection { socketId := "s1", printerName := "lobby-1" } afterUpload)).trace
      = emitted afterUpload.trace
    ∧ (findById 1 (printerRegistered { printerName := "lobby-1" }
        (connection { socketId := "s1", printerName := "lobby-1" } afterUpload)).jobs).map
          PrintJob.status = some "pending" := by
  decide

/-- C5, amended.  When an agent connects and announces identity P, the `connection` and
`printer-registered` handlers only write console lines: the job store is unchanged (a job
pending for P stays pending) and no message is emitted (no redelivery scan exists). -/
theorem printerRegistered_only_logs (s : Server) (agent : Agent) (data : RegisteredData) :
    (printerRegistered data (connection agent s)).jobs = s.jobs
    ∧ emitted (printerRegistered data (connection agent s)).trace = emitted s.trace
    ∧ (printerRegistered data (connection agent s)).trace
      = s.trace ++ [.log ("✓ Printer agent connected: " ++ agent.socketId),
                    .log ("✓ Printer registered: " ++ data.printerName)]
    ∧ (printerRegistered data s).jobs = s.jobs
    ∧ emitted (printerRegistered data s).trace = emitted s.trace := by
  have ht : (printerRegistered data (connection agent s)).trace
      = s.trace ++ [.log ("✓ Printer agent connected: " ++ agent.socketId),
                    .log ("✓ Printer registered: " ++ data.printerName)] := by
    simp [printerRegistered, connection, consoleLog, record]
  refine ⟨rfl, ?_, ht, rfl, ?_⟩
  · rw [ht, emitted_append]; simp [emitted]
  · show emitted (s.trace ++ _) = _
    rw [emitted_append]; simp [emitted]

/-! ## Job listing (`GET /api/jobs`) -/

/-- The listing of `threeJobs` (upload times 10, 30, 20) is in the order 30, 20, 10. -/
theorem findSortLimit_threeJobs :
    (findSortLimit threeJobs).map PrintJob._id = [2, 3, 1] := by
  decide

/-- C6.  For every job store, when the query succeeds `GET /api/jobs` answers 200 with a
list that is ordered most-recent-first by `uploadedAt` (every element is at least as recent
as every later one, in particular as the next one), has length `min 50 n` for `n` stored
jobs, consists of stored jobs, and together with the jobs left out is a rearrangement of the
store where no job left out is strictly more recent than a returned one. -/
theorem apiJobs_lists_most_recent_first (s : Server) :
    (apiJobs none s).2 = ⟨200, .jobs (findSortLimit s.jobs)⟩
    ∧ (findSortLimit s.jobs).Pairwise (fun a b => a.uploadedAt ≥ b.uploadedAt)
    ∧ (findSortLimit s.jobs).Chain' (fun a b => a.uploadedAt ≥ b.uploadedAt)
    ∧ (findSortLimit s.jobs).length = min 50 s.jobs.length
    ∧ (∀ j ∈ findSortLimit s.jobs, j ∈ s.jobs)
    ∧ (∃ rest, (findSortLimit s.jobs ++ rest).Perm s.jobs
        ∧ ∀ j ∈ rest, ∀ r ∈ findSortLimit s.jobs, ¬ (j.uploadedAt > r.uploadedAt))
    ∧ (∀ j ∈ s.jobs, j ∉ findSortLimit s.jobs →
        ∀ r ∈ findSortLimit s.jobs, ¬ (j.uploadedAt > r.uploadedAt)) := by
  have hsorted : (s.jobs.insertionSort moreRecent).Pairwise moreRecent :=
    List.sorted_insertionSort moreRecent s.jobs
  have hsplit : findSortLimit s.jobs ++ (s.jobs.insertionSort moreRecent).drop 50
      = s.jobs.insertionSort moreRecent := List.take_append_drop 50 _
  have hpair : (findSortLimit s.jobs).Pairwise moreRecent :=
    hsorted.sublist (List.take_sublist 50 _)
  have hcross : ∀ j ∈ (s.jobs.insertionSort moreRecent).drop 50,
      ∀ r ∈ findSortLimit s.jobs, ¬ (j.uploadedAt > r.uploadedAt) := by
    intro j hj r hr
    have := (List.pairwise_append.1 (hsplit ▸ hsorted)).2.2 r hr j hj
    exact Nat.not_lt.2 this
  refine ⟨rfl, hpair, List.Pairwise.chain' hpair, ?_, ?_, ⟨_, ?_, hcross⟩, ?_⟩
  · simp [findSortLimit, List.length_take, List.length_insertionSort]
  · intro j hj
    exact (List.mem_insertionSort moreRecent).1 (List.mem_of_mem_take hj)
  · rw [hsplit]; exact List.perm_insertionSort moreRecent s.jobs
  · intro j hj hnot r hr
    have hmem : j ∈ findSortLimit s.jobs ++ (s.jobs.insertionSort moreRecent).drop 50 := by
      rw [hsplit]; exact (List.mem_insertionSort moreRecent).2 hj
    rcases List.mem_append.1 hmem with h | h
    · exact absurd h hnot
    · exact hcross j h r hr

end CloudPrinter
